import Mathlib

/-!
Shallow embedding of the layer-chain calculation engine of `cnncalc`
(`src/cnncalc/main.py`): the layer model (Input, Conv, Pool), the
geometric recurrences (`Conv.calculate` and its four helper methods), the
chain evaluator (the driving loop of `main`), and the configuration
shortcut resolution of `create_layer_from_config`.

Python integers are embedded as `Int`; Python floor division `//` is
`Int.fdiv` and `%` is `Int.fmod` (both round toward negative infinity for
positive divisors, matching Python's semantics).  The receptive-field
center, a Python float that only ever holds half-integers produced by
exact additions, is embedded as `ℚ`.  Mutation of a layer's attributes
and of the configuration dictionary is embedded by explicit state
passing: a function that mutates its argument returns the updated record.
-/

namespace Cnncalc

/-- The `padding` argument of `Conv.__init__`: either one of the two named
policies (the strings `'same'` and `'valid'`) or a verbatim integer. -/
inductive PaddingArg where
  | same : PaddingArg
  | valid : PaddingArg
  | int : Int → PaddingArg
deriving DecidableEq

/-- Static parameters of a `Conv` layer after `Conv.__init__` ran:
`kernel`, `stride`, the resolved integer `padding`, and `paddingPolicy`
(the Python attribute `_padding`, holding the policy name when a named
policy was used and `None` otherwise). -/
structure Conv where
  name : Option String
  kernel : Int
  stride : Int
  padding : Int
  paddingPolicy : Option String
deriving DecidableEq

/-- Embedding of `Conv.__init__(kernel, stride, padding, name)`:
`'same'` resolves the integer padding to `kernel // 2`, `'valid'` to `0`,
and an explicit integer is kept verbatim with `_padding = None`. -/
def Conv.create (kernel stride : Int) (padding : PaddingArg) (name : Option String) : Conv :=
  match padding with
  | PaddingArg.same =>
      { name := name, kernel := kernel, stride := stride,
        padding := Int.fdiv kernel 2, paddingPolicy := some "same" }
  | PaddingArg.valid =>
      { name := name, kernel := kernel, stride := stride,
        padding := 0, paddingPolicy := some "valid" }
  | PaddingArg.int p =>
      { name := name, kernel := kernel, stride := stride,
        padding := p, paddingPolicy := none }

/-- Embedding of `Pool.__init__(size, name)`: delegates to
`Conv.__init__(size, stride=size, name=name)` with the default
padding `'same'`. -/
def Pool.create (size : Int) (name : Option String) : Conv :=
  Conv.create size size PaddingArg.same name

/-- The four derived geometric attributes of a layer once they have been
computed: `output_size`, `receptive_field_size`, `receptive_field_center`
and `jump`. -/
structure DerivedState where
  output_size : Int
  receptive_field_size : Int
  receptive_field_center : ℚ
  jump : Int
deriving DecidableEq

/-- Embedding of `Input.__init__(size)`: `output_size = size`,
`receptive_field_size = 1`, `receptive_field_center = 0.5`, `jump = 1`. -/
def Input.create (size : Int) : DerivedState :=
  { output_size := size, receptive_field_size := 1,
    receptive_field_center := 1/2, jump := 1 }

/-- Embedding of `Conv.calculate_output_size`:
`(self.kernel % 2) + ((input_size + 2 * self.padding - self.kernel) // self.stride)`. -/
def Conv.calculate_output_size (self : Conv) (input_size : Int) : Int :=
  Int.fmod self.kernel 2 + Int.fdiv (input_size + 2 * self.padding - self.kernel) self.stride

/-- Embedding of `Conv.calculate_output_jump`: `input_jump * self.stride`. -/
def Conv.calculate_output_jump (self : Conv) (input_jump : Int) : Int :=
  input_jump * self.stride

/-- Embedding of `Conv.calculate_receptive_field_size`:
`input_receptive_field + (self.kernel - 1) * input_jump`. -/
def Conv.calculate_receptive_field_size (self : Conv)
    (input_receptive_field input_jump : Int) : Int :=
  input_receptive_field + (self.kernel - 1) * input_jump

/-- Embedding of `Conv.calculate_receptive_field_center`:
`input_receptive_center + ((self.kernel - 1) // 2 - self.padding) * input_jump`. -/
def Conv.calculate_receptive_field_center (self : Conv)
    (input_receptive_center : ℚ) (input_jump : Int) : ℚ :=
  input_receptive_center + ((Int.fdiv (self.kernel - 1) 2 - self.padding) * input_jump : Int)

/-- Embedding of `Conv.calculate(input_layer)`: the four assignments to the
layer's derived attributes, each computed from the predecessor's derived
state and the layer's own static parameters. -/
def Conv.calculate (self : Conv) (input_layer : DerivedState) : DerivedState :=
  { output_size := self.calculate_output_size input_layer.output_size,
    receptive_field_size :=
      self.calculate_receptive_field_size input_layer.receptive_field_size input_layer.jump,
    receptive_field_center :=
      self.calculate_receptive_field_center input_layer.receptive_field_center input_layer.jump,
    jump := self.calculate_output_jump input_layer.jump }

/-- Embedding of the driving loop of `main` (lines 47-50): starting from the
input layer's state, each subsequent layer's `calculate` is invoked on the
state of the layer immediately preceding it; the result lists every
layer's derived state in order, the input layer's first. -/
def evalChain (input : DerivedState) : List Conv → List DerivedState
  | [] => [input]
  | c :: cs => input :: evalChain (c.calculate input) cs

/-- The mutable attribute slots of a layer object, each of which may hold
the Python sentinel `None` (embedded as `Option.none`). -/
structure LayerState where
  output_size : Option Int
  receptive_field_size : Option Int
  receptive_field_center : Option ℚ
  jump : Option Int
deriving DecidableEq

/-- Embedding of `Layer.__init__`: `output_size`, `receptive_field_size`
and `receptive_field_center` are set to `None` while `jump` is set to `1`. -/
def Layer.init : LayerState :=
  { output_size := none, receptive_field_size := none,
    receptive_field_center := none, jump := some 1 }

/-- A freshly constructed `Conv` layer object: its static parameters from
`Conv.__init__` paired with its attribute slots, which `Conv.__init__`
leaves exactly as `Layer.__init__` set them. -/
def Conv.new (kernel stride : Int) (padding : PaddingArg) (name : Option String) :
    Conv × LayerState :=
  (Conv.create kernel stride padding name, Layer.init)

/-- A freshly constructed `Pool` layer object: `Pool.__init__` delegates to
`Conv.__init__`, so its attribute slots are also those of `Layer.__init__`. -/
def Pool.new (size : Int) (name : Option String) : Conv × LayerState :=
  (Pool.create size name, Layer.init)

/-- Embedding of `Conv.calculate` seen as a mutation of the layer's
attribute slots: all four slots are overwritten with freshly computed
values; the slots' previous contents are never read. -/
def Conv.calculate_state (self : Conv) (_st : LayerState) (input_layer : DerivedState) :
    LayerState :=
  { output_size := some (self.calculate_output_size input_layer.output_size),
    receptive_field_size :=
      some (self.calculate_receptive_field_size input_layer.receptive_field_size
        input_layer.jump),
    receptive_field_center :=
      some (self.calculate_receptive_field_center input_layer.receptive_field_center
        input_layer.jump),
    jump := some (self.calculate_output_jump input_layer.jump) }

/-- A layer-configuration record as consumed by `create_layer_from_config`:
a mapping whose keys may be absent (`Option.none`).  Integer-valued keys
are embedded as `Option Int`, the padding-valued keys as
`Option PaddingArg` since Python allows either a policy string or an
integer there. -/
structure LayerConfig where
  type : Option String
  kernel_size : Option Int
  kernel : Option Int
  k : Option Int
  stride : Option Int
  s : Option Int
  padding : Option PaddingArg
  p : Option PaddingArg
  name : Option String
deriving DecidableEq

/-- Embedding of the shortcut-resolution block of `create_layer_from_config`
(lines 96-110), which mutates the configuration record in place: if
`kernel_size` is absent it is filled from `kernel`, else from `k`; if
`stride` is absent it is filled from `s`; if `padding` is absent it is
filled from `p`. -/
def resolve_shortcuts (config : LayerConfig) : LayerConfig :=
  let config :=
    if config.kernel_size.isSome then config
    else if config.kernel.isSome then { config with kernel_size := config.kernel }
    else if config.k.isSome then { config with kernel_size := config.k }
    else config
  let config :=
    if config.stride.isNone && config.s.isSome then { config with stride := config.s }
    else config
  let config :=
    if config.padding.isNone && config.p.isSome then { config with padding := config.p }
    else config
  config

/-- Embedding of Python's `str.lower()` as character-wise lowercasing,
applied to the `type` value. -/
def str_lower (x : String) : String :=
  ⟨x.data.map Char.toLower⟩

/-- Embedding of `create_layer_from_config(config)`.  The first component
is the produced layer, or the error Python raises (`KeyError` when a
`conv`/`pool` record lacks any kernel key; `UnboundLocalError` when the
lowered `type` is neither `'conv'` nor `'pool'`, since `layer` is then
never assigned before `return layer`).  The second component is the
caller's configuration record after the in-place shortcut resolution,
which Python performs before the type dispatch. -/
def create_layer_from_config (config : LayerConfig) : Except String Conv × LayerConfig :=
  let layer_type := str_lower (config.type.getD "conv")
  let config := resolve_shortcuts config
  if layer_type = "conv" then
    match config.kernel_size with
    | some kernel =>
        (Except.ok (Conv.create kernel (config.stride.getD 1)
          (config.padding.getD PaddingArg.same) config.name), config)
    | none => (Except.error "KeyError", config)
  else if layer_type = "pool" then
    match config.kernel_size with
    | some size => (Except.ok (Pool.create size config.name), config)
    | none => (Except.error "KeyError", config)
  else
    (Except.error "UnboundLocalError", config)

end Cnncalc

namespace Cnncalc

/-! Helper lemmas. -/

/-- Python floor division by a positive divisor is the mathematical floor of
the rational quotient. -/
theorem fdiv_eq_rat_floor (a : Int) {b : Int} (hb : 0 < b) :
    Int.fdiv a b = ⌊(a : ℚ) / (b : ℚ)⌋ := by
  rw [Int.fdiv_eq_ediv _ hb.le]
  obtain ⟨n, rfl⟩ : ∃ n : ℕ, b = (n : Int) := ⟨b.toNat, (Int.toNat_of_nonneg hb.le).symm⟩
  rw [show ((n : Int) : ℚ) = (n : ℚ) by push_cast; ring]
  exact (Rat.floor_intCast_div_natCast a n).symm

/-- The evaluated chain has one state per layer, the input layer included. -/
theorem evalChain_length (input : DerivedState) (cs : List Conv) :
    (evalChain input cs).length = cs.length + 1 := by
  induction cs generalizing input with
  | nil => rfl
  | cons c cs ih => simp [evalChain, ih]

/-- Each state of the evaluated chain has as its jump the starting state's
jump times the product of the strides of the layers up to it. -/
theorem evalChain_jump_eq (input : DerivedState) (cs : List Conv) (i : Nat)
    (h : i < (evalChain input cs).length) :
    ((evalChain input cs).getD i (Input.create 0)).jump
      = input.jump * ((cs.take i).map Conv.stride).prod := by
  induction cs generalizing input i with
  | nil =>
    have hi : i = 0 := by simpa [evalChain] using h
    subst hi
    simp [evalChain]
  | cons c cs ih =>
    cases i with
    | zero => simp [evalChain]
    | succ i =>
      have h' : i < (evalChain (c.calculate input) cs).length := by
        simpa [evalChain] using h
      simp only [evalChain, List.getD_cons_succ, List.take_succ_cons, List.map_cons,
        List.prod_cons, ih (c.calculate input) i h']
      simp [Conv.calculate, Conv.calculate_output_jump]
      ring

/-- A Conv with kernel 1, stride 1 and padding 0 maps the state of an Input
layer to itself. -/
theorem identity_conv_fixed (N : Int) :
    (Conv.create 1 1 (PaddingArg.int 0) none).calculate (Input.create N) = Input.create N := by
  simp [Conv.calculate, Conv.create, Input.create, Conv.calculate_output_size,
    Conv.calculate_output_jump, Conv.calculate_receptive_field_size,
    Conv.calculate_receptive_field_center, Int.fdiv_one,
    show Int.fmod 1 2 = 1 by decide, show Int.fdiv 0 2 = 0 by decide]

/-- The kernel attribute stored by `Conv.__init__` is the kernel argument,
whatever the padding argument was. -/
theorem Conv.create_kernel (kernel stride : Int) (padding : PaddingArg) (name : Option String) :
    (Conv.create kernel stride padding name).kernel = kernel := by
  cases padding <;> rfl

/-- Shortcut resolution fills `kernel_size` from the first present key among
`kernel_size`, `kernel`, `k`; `stride` from `stride` if present, else `s`;
and `padding` from `padding` if present, else `p`. -/
theorem resolve_shortcuts_spec (c : LayerConfig) :
    (resolve_shortcuts c).kernel_size = c.kernel_size.or (c.kernel.or c.k)
    ∧ (resolve_shortcuts c).stride = c.stride.or c.s
    ∧ (resolve_shortcuts c).padding = c.padding.or c.p := by
  obtain ⟨ty, ks, kr, kk, st, ss, pd, pp, nm⟩ := c
  cases ks <;> cases kr <;> cases kk <;> cases st <;> cases ss <;> cases pd <;> cases pp <;>
    exact ⟨rfl, rfl, rfl⟩

/-! Claim theorems. -/

/-- C1: for every Conv layer with kernel K, stride S and resolved integer
padding P, and every predecessor state (N, R, C, J), `calculate` sets
`output_size` to `(K mod 2) + floor((N + 2*P - K) / S)`,
`receptive_field_size` to `R + (K - 1)*J`, and `receptive_field_center` to
`C + (floor((K - 1)/2) - P)*J`. -/
theorem C1_conv_transform_formulas (c : Conv) (pred : DerivedState) (hS : 0 < c.stride) :
    (c.calculate pred).output_size
      = c.kernel % 2
        + ⌊((pred.output_size : ℚ) + 2 * (c.padding : ℚ) - (c.kernel : ℚ)) / (c.stride : ℚ)⌋
    ∧ (c.calculate pred).receptive_field_size
      = pred.receptive_field_size + (c.kernel - 1) * pred.jump
    ∧ (c.calculate pred).receptive_field_center
      = pred.receptive_field_center
        + (((⌊((c.kernel : ℚ) - 1) / 2⌋ - c.padding) * pred.jump : Int) : ℚ) := by
  refine ⟨?_, rfl, ?_⟩
  · show Int.fmod c.kernel 2 + Int.fdiv (pred.output_size + 2 * c.padding - c.kernel) c.stride = _
    rw [Int.fmod_eq_emod _ (by norm_num), fdiv_eq_rat_floor _ hS]
    push_cast
    ring_nf
  · show pred.receptive_field_center
        + (((Int.fdiv (c.kernel - 1) 2 - c.padding) * pred.jump : Int) : ℚ) = _
    rw [fdiv_eq_rat_floor (c.kernel - 1) (by norm_num)]
    push_cast
    ring_nf

/-- C1 witness: the theorem instantiated at Conv(kernel=3, stride=1,
padding='same') atop Input(10). -/
theorem C1_witness :
    0 < (Conv.create 3 1 PaddingArg.same none).stride
    ∧ (((Conv.create 3 1 PaddingArg.same none).calculate (Input.create 10)).output_size
        = (Conv.create 3 1 PaddingArg.same none).kernel % 2
          + ⌊(((Input.create 10).output_size : ℚ)
              + 2 * ((Conv.create 3 1 PaddingArg.same none).padding : ℚ)
              - ((Conv.create 3 1 PaddingArg.same none).kernel : ℚ))
            / ((Conv.create 3 1 PaddingArg.same none).stride : ℚ)⌋
      ∧ ((Conv.create 3 1 PaddingArg.same none).calculate (Input.create 10)).receptive_field_size
        = (Input.create 10).receptive_field_size
          + ((Conv.create 3 1 PaddingArg.same none).kernel - 1) * (Input.create 10).jump
      ∧ ((Conv.create 3 1 PaddingArg.same none).calculate (Input.create 10)).receptive_field_center
        = (Input.create 10).receptive_field_center
          + (((⌊(((Conv.create 3 1 PaddingArg.same none).kernel : ℚ) - 1) / 2⌋
              - (Conv.create 3 1 PaddingArg.same none).padding)
              * (Input.create 10).jump : Int) : ℚ)) :=
  ⟨by decide, C1_conv_transform_formulas (Conv.create 3 1 PaddingArg.same none)
    (Input.create 10) (by decide)⟩

/-- C2: a Pool layer constructed with size s computes exactly the same four
derived attributes as a Conv layer constructed with kernel=s, stride=s and
the default padding 'same', on any predecessor. -/
theorem C2_pool_equals_conv (size : Int) (name : Option String) (pred : DerivedState) :
    (Pool.create size name).calculate pred
      = (Conv.create size size PaddingArg.same name).calculate pred := rfl

/-- C3: padding 'same' resolves to kernel // 2 (floor division), 'valid'
resolves to 0, and any other value is used verbatim with no named policy
tag recorded. -/
theorem C3_padding_resolution (kernel stride : Int) (name : Option String) :
    (Conv.create kernel stride PaddingArg.same name).padding = ⌊(kernel : ℚ) / 2⌋
    ∧ (Conv.create kernel stride PaddingArg.same name).paddingPolicy = some "same"
    ∧ (Conv.create kernel stride PaddingArg.valid name).padding = 0
    ∧ (Conv.create kernel stride PaddingArg.valid name).paddingPolicy = some "valid"
    ∧ ∀ p : Int, (Conv.create kernel stride (PaddingArg.int p) name).padding = p
        ∧ (Conv.create kernel stride (PaddingArg.int p) name).paddingPolicy = none := by
  refine ⟨?_, rfl, rfl, rfl, fun p => ⟨rfl, rfl⟩⟩
  show Int.fdiv kernel 2 = _
  rw [fdiv_eq_rat_floor _ (by norm_num)]
  norm_num

/-- C4: in every evaluated chain headed by an Input layer, every layer's
jump equals the product of the strides of the non-Input layers up to and
including it; the Input layer (prefix i = 0) has jump 1, the empty
product. -/
theorem C4_jump_cumulative_product (N : Int) (cs : List Conv) (i : Nat)
    (h : i < (evalChain (Input.create N) cs).length) :
    ((evalChain (Input.create N) cs).getD i (Input.create 0)).jump
      = ((cs.take i).map Conv.stride).prod := by
  have hgen := evalChain_jump_eq (Input.create N) cs i h
  simpa [Input.create] using hgen

/-- C4 witness: a two-layer chain with strides 2 and 2 atop Input(8); the
last layer's jump is the product 4. -/
theorem C4_witness :
    2 < (evalChain (Input.create 8) [Conv.create 3 2 (PaddingArg.int 1) none,
        Conv.create 2 2 PaddingArg.same none]).length
    ∧ ((evalChain (Input.create 8) [Conv.create 3 2 (PaddingArg.int 1) none,
        Conv.create 2 2 PaddingArg.same none]).getD 2 (Input.create 0)).jump
      = (([Conv.create 3 2 (PaddingArg.int 1) none,
          Conv.create 2 2 PaddingArg.same none].take 2).map Conv.stride).prod :=
  ⟨by decide, C4_jump_cumulative_product 8 _ 2 (by decide)⟩

/-- C5 counterexample: Conv(kernel=4, stride=1, padding=0) atop Input(10)
has output_size 6, while Conv(kernel=3) with the same stride, padding and
input has output_size 8 — the even-kernel output is not one less than the
odd-kernel output. -/
theorem C5_counterexample :
    ¬ ((((Conv.create 4 1 (PaddingArg.int 0) none).calculate (Input.create 10)).output_size)
      = (((Conv.create 3 1 (PaddingArg.int 0) none).calculate (Input.create 10)).output_size)
        - 1) := by decide

/-- C5 (amended): for two Conv layers with identical explicit integer
padding, identical positive stride and identical predecessor, whose
kernels are an odd K and the even K+1, the even-kernel layer's
output_size is one or two less than the odd-kernel layer's, and with
stride 1 it is exactly two less. -/
theorem C5_amended_parity_gap (K S P : Int) (pred : DerivedState)
    (hK : K % 2 = 1) (hS : 0 < S) :
    ((((Conv.create (K + 1) S (PaddingArg.int P) none).calculate pred).output_size
        = (((Conv.create K S (PaddingArg.int P) none).calculate pred).output_size) - 1)
      ∨ (((Conv.create (K + 1) S (PaddingArg.int P) none).calculate pred).output_size
        = (((Conv.create K S (PaddingArg.int P) none).calculate pred).output_size) - 2))
    ∧ (S = 1 →
        (((Conv.create (K + 1) S (PaddingArg.int P) none).calculate pred).output_size
          = (((Conv.create K S (PaddingArg.int P) none).calculate pred).output_size) - 2)) := by
  have hodd : Int.fmod K 2 = 1 := by
    rw [Int.fmod_eq_emod _ (by norm_num)]; exact hK
  have heven : Int.fmod (K + 1) 2 = 0 := by
    rw [Int.fmod_eq_emod _ (by norm_num)]; omega
  simp only [Conv.calculate, Conv.create, Conv.calculate_output_size, hodd, heven]
  rw [Int.fdiv_eq_ediv _ hS.le, Int.fdiv_eq_ediv _ hS.le]
  have hnum : pred.output_size + 2 * P - (K + 1) = (pred.output_size + 2 * P - K) - 1 := by
    omega
  rw [hnum]
  constructor
  · have h1 : (pred.output_size + 2 * P - K - 1) / S ≤ (pred.output_size + 2 * P - K) / S :=
      Int.ediv_le_ediv hS (by omega)
    have h2 : (pred.output_size + 2 * P - K) / S ≤ (pred.output_size + 2 * P - K - 1) / S + 1 := by
      have hle : pred.output_size + 2 * P - K ≤ (pred.output_size + 2 * P - K - 1) + 1 * S := by
        omega
      calc (pred.output_size + 2 * P - K) / S
          ≤ ((pred.output_size + 2 * P - K - 1) + 1 * S) / S := Int.ediv_le_ediv hS hle
        _ = (pred.output_size + 2 * P - K - 1) / S + 1 :=
            Int.add_mul_ediv_right _ _ (by omega)
    omega
  · intro h1
    subst h1
    simp only [Int.ediv_one]
    omega

/-- C5 amended witness: at K=3, S=2, P=0 atop Input(10), the even kernel 4
gives output 3, one less than kernel 3's output 4. -/
theorem C5_amended_witness :
    (3 : Int) % 2 = 1 ∧ (0 : Int) < 2 ∧
    (((Conv.create (3 + 1) 2 (PaddingArg.int 0) none).calculate (Input.create 10)).output_size
        = ((Conv.create 3 2 (PaddingArg.int 0) none).calculate (Input.create 10)).output_size - 1
      ∨ ((Conv.create (3 + 1) 2 (PaddingArg.int 0) none).calculate (Input.create 10)).output_size
        = ((Conv.create 3 2 (PaddingArg.int 0) none).calculate (Input.create 10)).output_size - 2) :=
  ⟨by decide, by decide,
    (C5_amended_parity_gap 3 2 0 (Input.create 10) (by decide) (by decide)).1⟩

/-- C6: an Input of any non-negative size N followed by k identity
convolutions (kernel=1, stride=1, padding=0) evaluates so that every
layer's state is exactly the Input baseline: output_size = N,
receptive_field_size = 1, receptive_field_center = 0.5, jump = 1. -/
theorem C6_identity_chain (N : Int) (_hN : 0 ≤ N) (k : Nat) :
    evalChain (Input.create N) (List.replicate k (Conv.create 1 1 (PaddingArg.int 0) none))
      = List.replicate (k + 1) (Input.create N) := by
  induction k with
  | zero => rfl
  | succ k ih =>
    rw [List.replicate_succ, List.replicate_succ]
    show Input.create N
        :: evalChain ((Conv.create 1 1 (PaddingArg.int 0) none).calculate (Input.create N))
          (List.replicate k (Conv.create 1 1 (PaddingArg.int 0) none))
      = Input.create N :: List.replicate (k + 1) (Input.create N)
    rw [identity_conv_fixed, ih]

/-- C6 witness: the theorem instantiated at N = 7 and k = 2. -/
theorem C6_witness :
    (0 : Int) ≤ 7
    ∧ evalChain (Input.create 7) (List.replicate 2 (Conv.create 1 1 (PaddingArg.int 0) none))
      = List.replicate 3 (Input.create 7) :=
  ⟨by decide, C6_identity_chain 7 (by decide) 2⟩

/-- C7 counterexample: a freshly constructed Conv(kernel=3, stride=1,
padding='same') has jump already initialized to 1, not the absent/None
sentinel, before its transform ever runs. -/
theorem C7_counterexample :
    (Conv.new 3 1 PaddingArg.same none).2.jump = some 1
    ∧ ¬ (Conv.new 3 1 PaddingArg.same none).2.jump = none := by decide

/-- C7 (amended): for every newly constructed Conv or Pool layer, before
its transform is invoked, output_size, receptive_field_size and
receptive_field_center hold the None sentinel while jump holds 1; the
transform then assigns all four attributes, with values independent of
the slots' prior contents (write-once: determined solely by the static
parameters and the predecessor). -/
theorem C7_amended_init_state (kernel stride : Int) (padding : PaddingArg)
    (name : Option String) :
    (Conv.new kernel stride padding name).2.output_size = none
    ∧ (Conv.new kernel stride padding name).2.receptive_field_size = none
    ∧ (Conv.new kernel stride padding name).2.receptive_field_center = none
    ∧ (Conv.new kernel stride padding name).2.jump = some 1
    ∧ (Pool.new kernel name).2 = (Conv.new kernel stride padding name).2
    ∧ (∀ (st st' : LayerState) (pred : DerivedState),
        Conv.calculate_state (Conv.new kernel stride padding name).1 st pred
          = Conv.calculate_state (Conv.new kernel stride padding name).1 st' pred)
    ∧ (∀ (st : LayerState) (pred : DerivedState),
        (Conv.calculate_state (Conv.new kernel stride padding name).1 st pred).output_size.isSome
        ∧ (Conv.calculate_state (Conv.new kernel stride padding name).1 st
            pred).receptive_field_size.isSome
        ∧ (Conv.calculate_state (Conv.new kernel stride padding name).1 st
            pred).receptive_field_center.isSome
        ∧ (Conv.calculate_state (Conv.new kernel stride padding name).1 st pred).jump.isSome) :=
  ⟨rfl, rfl, rfl, rfl, rfl, fun _ _ _ => rfl, fun _ _ => ⟨rfl, rfl, rfl, rfl⟩⟩

/-- C8: a configuration record whose lowered `type` value is neither
'conv' nor 'pool' makes layer construction raise an error to the caller
(Python's UnboundLocalError at `return layer`); no layer is produced and
no default is silently applied. -/
theorem C8_unknown_type_errors (config : LayerConfig) (t : String)
    (ht : config.type = some t) (h1 : str_lower t ≠ "conv") (h2 : str_lower t ≠ "pool") :
    (create_layer_from_config config).1 = Except.error "UnboundLocalError" := by
  simp [create_layer_from_config, ht, h1, h2]

/-- C8 witness: a record with type 'dense' errors out. -/
theorem C8_witness :
    ({ type := some "dense", kernel_size := some 3, kernel := none, k := none,
       stride := none, s := none, padding := none, p := none,
       name := none } : LayerConfig).type = some "dense"
    ∧ str_lower "dense" ≠ "conv" ∧ str_lower "dense" ≠ "pool"
    ∧ (create_layer_from_config
        { type := some "dense", kernel_size := some 3, kernel := none, k := none,
          stride := none, s := none, padding := none, p := none,
          name := none }).1 = Except.error "UnboundLocalError" :=
  ⟨rfl, by decide, by decide,
    C8_unknown_type_errors _ "dense" rfl (by decide) (by decide)⟩

/-- C9: the kernel used for construction comes from `kernel_size` if
present, else `kernel`, else `k`; the stride from `stride` else `s`; the
padding from `padding` else `p`; and a conv record resolving to kernel
value kr is constructed with that kernel. -/
theorem C9_shortcut_precedence (config : LayerConfig) (kr : Int)
    (ht : str_lower (config.type.getD "conv") = "conv")
    (hk : config.kernel_size.or (config.kernel.or config.k) = some kr) :
    (resolve_shortcuts config).kernel_size = some kr
    ∧ (resolve_shortcuts config).stride = config.stride.or config.s
    ∧ (resolve_shortcuts config).padding = config.padding.or config.p
    ∧ ∃ layer : Conv,
        (create_layer_from_config config).1 = Except.ok layer ∧ layer.kernel = kr := by
  have hres : (resolve_shortcuts config).kernel_size = some kr := by
    rw [(resolve_shortcuts_spec config).1, hk]
  refine ⟨hres, (resolve_shortcuts_spec config).2.1, (resolve_shortcuts_spec config).2.2, ?_⟩
  simp only [create_layer_from_config, ht, if_pos, hres]
  exact ⟨_, rfl, Conv.create_kernel _ _ _ _⟩

/-- C9 witness: a record supplying both kernel_size=5 and k=3 resolves to
kernel 5 and builds a Conv layer with kernel 5. -/
theorem C9_witness :
    (resolve_shortcuts
        { type := none, kernel_size := some 5, kernel := none, k := some 3,
          stride := none, s := none, padding := none, p := none,
          name := none }).kernel_size = some 5
    ∧ (resolve_shortcuts
        { type := none, kernel_size := some 5, kernel := none, k := some 3,
          stride := none, s := none, padding := none, p := none,
          name := none }).stride = none
    ∧ (resolve_shortcuts
        { type := none, kernel_size := some 5, kernel := none, k := some 3,
          stride := none, s := none, padding := none, p := none,
          name := none }).padding = none
    ∧ ∃ layer : Conv,
        (create_layer_from_config
          { type := none, kernel_size := some 5, kernel := none, k := some 3,
            stride := none, s := none, padding := none, p := none,
            name := none }).1 = Except.ok layer ∧ layer.kernel = 5 :=
  C9_shortcut_precedence _ 5 (by decide) (by decide)

/-- C10: resolving configuration shortcuts mutates the caller's record:
the record visible to the caller after `create_layer_from_config` (the
second component, modelling the in-place-updated mapping) is exactly the
resolved record, with `kernel_size` filled from `kernel` or `k` when it
was absent, `stride` from `s`, and `padding` from `p`. -/
theorem C10_inplace_mutation (config : LayerConfig) :
    (create_layer_from_config config).2 = resolve_shortcuts config
    ∧ (config.kernel_size = none →
        (create_layer_from_config config).2.kernel_size = config.kernel.or config.k)
    ∧ (config.stride = none → (create_layer_from_config config).2.stride = config.s)
    ∧ (config.padding = none → (create_layer_from_config config).2.padding = config.p) := by
  have h2 : (create_layer_from_config config).2 = resolve_shortcuts config := by
    simp only [create_layer_from_config]
    split
    · split <;> rfl
    · split
      · split <;> rfl
      · rfl
  refine ⟨h2, fun hks => ?_, fun hst => ?_, fun hpd => ?_⟩
  · rw [h2, (resolve_shortcuts_spec config).1, hks, Option.none_or]
  · rw [h2, (resolve_shortcuts_spec config).2.1, hst, Option.none_or]
  · rw [h2, (resolve_shortcuts_spec config).2.2, hpd, Option.none_or]

/-- C10 witness: a record lacking kernel_size/stride/padding but supplying
kernel=7, s=2, p=1 comes back with kernel_size=7, stride=2, padding=1. -/
theorem C10_witness :
    (create_layer_from_config
        { type := none, kernel_size := none, kernel := some 7, k := none,
          stride := none, s := some 2, padding := none, p := some (PaddingArg.int 1),
          name := none }).2.kernel_size = some 7
    ∧ (create_layer_from_config
        { type := none, kernel_size := none, kernel := some 7, k := none,
          stride := none, s := some 2, padding := none, p := some (PaddingArg.int 1),
          name := none }).2.stride = some 2
    ∧ (create_layer_from_config
        { type := none, kernel_size := none, kernel := some 7, k := none,
          stride := none, s := some 2, padding := none, p := some (PaddingArg.int 1),
          name := none }).2.padding = some (PaddingArg.int 1) :=
  ⟨(C10_inplace_mutation _).2.1 rfl, (C10_inplace_mutation _).2.2.1 rfl,
    (C10_inplace_mutation _).2.2.2 rfl⟩

end Cnncalc
